import Mathlib

/-!
Verification development for the `keli` weather aggregation service.

The Go program is shallowly embedded as follows:
* Go `float64` fields become `Rat` (the merge logic only compares against
  zero, and the text renderer rounds to one decimal, both expressible on
  rationals); Go `int` becomes `Int`; Go `string` becomes `String`.
* A Go slice is modelled as a Lean `List`; the zero-valued (nil) slice is
  the empty list.  Within this program every `HourlyForecast` slice handed
  to the merge is either nil or non-empty (the parsers only ever `append`
  to a nil slice), so the source's `!= nil` guards are rendered as `≠ []`.
* `time.Time` / `time.Duration` values are nanosecond counts (`Int`),
  matching Go's internal representation; `time.Since(t)` is `now - t`.
* The global cache map is an explicit `String → Option WeatherData`
  argument threaded through `GetWeatherData`, which returns the updated map.
* The network fan-out is external to the pure model: the list of partial
  records that reached the collection channel is a parameter `fetched`.
-/

namespace Keli

/-- One entry of the hourly forecast (`HourlyForecast` struct in the source). -/
structure HourlyForecast where
  hour : String := ""
  weatherSymbol : String := ""
  temperature : Rat := 0
  temperatureFeelsLike : Rat := 0
  windSpeed : Int := 0
  rainfall : Rat := 0
  rainChance : Int := 0
deriving DecidableEq

/-- The `WeatherData` struct of the source, with Go zero values as defaults. -/
structure WeatherData where
  city : String := ""
  observationHour : Int := 0
  weatherSummary : String := ""
  temperature : Rat := 0
  temperatureFeelsLike : Rat := 0
  temperatureMin : Rat := 0
  temperatureMax : Rat := 0
  rainfall : Rat := 0
  snowfall : Rat := 0
  windSpeed : Int := 0
  rainChance : Int := 0
  temperatureTomorrow : Rat := 0
  temperatureMinTomorrow : Rat := 0
  sunrise : String := ""
  sunset : String := ""
  dayLength : String := ""
  lastUpdated : Int := 0
  hourlyForecast : List HourlyForecast := []
deriving DecidableEq

/-- `chooseNonEmptyString` helper from `mergeWeatherData`. -/
def chooseNonEmptyString (existing incoming : String) : String :=
  if existing ≠ "" then existing else incoming

/-- `chooseNonZeroFloat64` helper from `mergeWeatherData` (float64 as `Rat`). -/
def chooseNonZeroFloat64 (existing incoming : Rat) : Rat :=
  if incoming ≠ 0 then incoming else existing

/-- Body of the `for _, d := range data` loop of `mergeWeatherData`: folds one
partial record `d` into the accumulator `md`.  The integer fields and the
hourly forecast use the inline `if d.X != 0 { md.X = d.X }` pattern of the
source. -/
def mergeStep (md d : WeatherData) : WeatherData :=
  { md with
    city := chooseNonEmptyString md.city d.city
    temperatureMax := chooseNonZeroFloat64 md.temperatureMax d.temperatureMax
    temperatureMin := chooseNonZeroFloat64 md.temperatureMin d.temperatureMin
    rainfall := chooseNonZeroFloat64 md.rainfall d.rainfall
    snowfall := chooseNonZeroFloat64 md.snowfall d.snowfall
    windSpeed := if d.windSpeed ≠ 0 then d.windSpeed else md.windSpeed
    weatherSummary := chooseNonEmptyString md.weatherSummary d.weatherSummary
    sunrise := chooseNonEmptyString md.sunrise d.sunrise
    sunset := chooseNonEmptyString md.sunset d.sunset
    dayLength := chooseNonEmptyString md.dayLength d.dayLength
    temperature := chooseNonZeroFloat64 md.temperature d.temperature
    temperatureFeelsLike := chooseNonZeroFloat64 md.temperatureFeelsLike d.temperatureFeelsLike
    observationHour := if d.observationHour ≠ 0 then d.observationHour else md.observationHour
    temperatureTomorrow := chooseNonZeroFloat64 md.temperatureTomorrow d.temperatureTomorrow
    temperatureMinTomorrow :=
      chooseNonZeroFloat64 md.temperatureMinTomorrow d.temperatureMinTomorrow
    hourlyForecast := if d.hourlyForecast ≠ [] then d.hourlyForecast else md.hourlyForecast }

/-- `mergeWeatherData` of the source: reduce the partial records, in order,
starting from the zero-valued record `md`. -/
def mergeWeatherData (data : List WeatherData) : WeatherData :=
  data.foldl mergeStep {}

/-- Specification-side resolver: the first value in the list that differs from
the empty/zero value `z`, or `z` when there is none ("first non-empty wins"). -/
def firstNonEmpty {α : Type} [DecidableEq α] (z : α) : List α → α
  | [] => z
  | x :: xs => if x ≠ z then x else firstNonEmpty z xs

/-- Specification-side resolver: the last value in the list that differs from
the empty/zero value `z`, or `z` when there is none ("last non-zero wins"). -/
def lastNonZero {α : Type} [DecidableEq α] (z : α) : List α → α
  | [] => z
  | x :: xs => if lastNonZero z xs ≠ z then lastNonZero z xs else x

theorem foldl_firstWins {α : Type} [DecidableEq α] (z : α) (xs : List α) :
    ∀ acc : α, xs.foldl (fun e i => if e ≠ z then e else i) acc
      = if acc ≠ z then acc else firstNonEmpty z xs := by
  induction xs with
  | nil =>
    intro acc
    by_cases h : acc = z <;> simp [h, firstNonEmpty]
  | cons x xs ih =>
    intro acc
    simp only [List.foldl_cons, ih, firstNonEmpty]
    by_cases h : acc = z <;> by_cases hx : x = z <;> simp [h, hx]

theorem foldl_lastWins {α : Type} [DecidableEq α] (z : α) (xs : List α) :
    ∀ acc : α, xs.foldl (fun e i => if i ≠ z then i else e) acc
      = if lastNonZero z xs ≠ z then lastNonZero z xs else acc := by
  induction xs with
  | nil =>
    intro acc
    simp [lastNonZero]
  | cons x xs ih =>
    intro acc
    simp only [List.foldl_cons, ih, lastNonZero]
    by_cases h : lastNonZero z xs = z <;> by_cases hx : x = z <;> simp [h, hx]

theorem foldl_mergeStep_proj {α : Type} (f : WeatherData → α) (g : α → α → α)
    (hfg : ∀ md d, f (mergeStep md d) = g (f md) (f d)) :
    ∀ (ds : List WeatherData) (acc : WeatherData),
      f (ds.foldl mergeStep acc) = (ds.map f).foldl g (f acc) := by
  intro ds
  induction ds with
  | nil => intro _; rfl
  | cons d ds ih =>
    intro acc
    simp only [List.foldl_cons, List.map_cons]
    rw [ih, hfg]

theorem merge_string_field (f : WeatherData → String)
    (hf : ∀ md d, f (mergeStep md d) = chooseNonEmptyString (f md) (f d))
    (hz : f ({} : WeatherData) = "") (ds : List WeatherData) :
    f (mergeWeatherData ds) = firstNonEmpty "" (ds.map f) := by
  have h := foldl_mergeStep_proj f chooseNonEmptyString hf ds {}
  rw [mergeWeatherData, h, hz]
  have : chooseNonEmptyString = fun e i => if e ≠ "" then e else i := rfl
  rw [this, foldl_firstWins]
  simp

theorem merge_lastWins_field {α : Type} [DecidableEq α] (z : α) (f : WeatherData → α)
    (hf : ∀ md d, f (mergeStep md d) = if f d ≠ z then f d else f md)
    (hz : f ({} : WeatherData) = z) (ds : List WeatherData) :
    f (mergeWeatherData ds) = lastNonZero z (ds.map f) := by
  have h := foldl_mergeStep_proj f (fun e i => if i ≠ z then i else e) hf ds {}
  rw [mergeWeatherData, h, hz, foldl_lastWins]
  by_cases hL : lastNonZero z (ds.map f) = z <;> simp [hL]

theorem merge_append_proj {α : Type} (f : WeatherData → α) (g : α → α → α)
    (hfg : ∀ md d, f (mergeStep md d) = g (f md) (f d)) (ds es : List WeatherData) :
    f (mergeWeatherData (ds ++ es)) = (es.map f).foldl g (f (mergeWeatherData ds)) := by
  rw [mergeWeatherData, List.foldl_append]
  exact foldl_mergeStep_proj f g hfg es (ds.foldl mergeStep {})

theorem merge_string_field_append (f : WeatherData → String)
    (hf : ∀ md d, f (mergeStep md d) = chooseNonEmptyString (f md) (f d))
    (hz : f ({} : WeatherData) = "") (ds es : List WeatherData) :
    f (mergeWeatherData (ds ++ es))
      = chooseNonEmptyString (f (mergeWeatherData ds)) (f (mergeWeatherData es)) := by
  rw [merge_append_proj f chooseNonEmptyString hf ds es]
  have hfold : (es.map f).foldl chooseNonEmptyString (f (mergeWeatherData ds))
      = if f (mergeWeatherData ds) ≠ "" then f (mergeWeatherData ds)
        else firstNonEmpty "" (es.map f) :=
    foldl_firstWins "" (es.map f) (f (mergeWeatherData ds))
  rw [hfold, ← merge_string_field f hf hz es]
  by_cases h : f (mergeWeatherData ds) = "" <;> simp [chooseNonEmptyString, h]

theorem merge_lastWins_field_append {α : Type} [DecidableEq α] (z : α) (f : WeatherData → α)
    (hf : ∀ md d, f (mergeStep md d) = if f d ≠ z then f d else f md)
    (hz : f ({} : WeatherData) = z) (ds es : List WeatherData) :
    f (mergeWeatherData (ds ++ es))
      = if f (mergeWeatherData es) ≠ z then f (mergeWeatherData es)
        else f (mergeWeatherData ds) := by
  rw [merge_append_proj f (fun e i => if i ≠ z then i else e) hf ds es]
  rw [foldl_lastWins, ← merge_lastWins_field z f hf hz es]

theorem merge_snoc (ds : List WeatherData) (d : WeatherData) :
    mergeWeatherData (ds ++ [d]) = mergeStep (mergeWeatherData ds) d := by
  rw [mergeWeatherData, List.foldl_append]
  rfl

/-- C1: in `mergeWeatherData`, every string field (`city`, `weatherSummary`,
`sunrise`, `sunset`, `dayLength`) resolves to the first non-empty value in
sequence order, and — in the hypothesis-free append form — a value set by an
earlier block of records is never overwritten by later records. -/
theorem mergeWeatherData_string_fields_first_wins (ds es : List WeatherData) :
    ((mergeWeatherData ds).city = firstNonEmpty "" (ds.map (fun w => w.city))
      ∧ (mergeWeatherData ds).weatherSummary
          = firstNonEmpty "" (ds.map (fun w => w.weatherSummary))
      ∧ (mergeWeatherData ds).sunrise = firstNonEmpty "" (ds.map (fun w => w.sunrise))
      ∧ (mergeWeatherData ds).sunset = firstNonEmpty "" (ds.map (fun w => w.sunset))
      ∧ (mergeWeatherData ds).dayLength = firstNonEmpty "" (ds.map (fun w => w.dayLength)))
    ∧ ((mergeWeatherData (ds ++ es)).city
          = chooseNonEmptyString (mergeWeatherData ds).city (mergeWeatherData es).city
      ∧ (mergeWeatherData (ds ++ es)).weatherSummary
          = chooseNonEmptyString (mergeWeatherData ds).weatherSummary
              (mergeWeatherData es).weatherSummary
      ∧ (mergeWeatherData (ds ++ es)).sunrise
          = chooseNonEmptyString (mergeWeatherData ds).sunrise (mergeWeatherData es).sunrise
      ∧ (mergeWeatherData (ds ++ es)).sunset
          = chooseNonEmptyString (mergeWeatherData ds).sunset (mergeWeatherData es).sunset
      ∧ (mergeWeatherData (ds ++ es)).dayLength
          = chooseNonEmptyString (mergeWeatherData ds).dayLength
              (mergeWeatherData es).dayLength) :=
  ⟨⟨merge_string_field (fun w => w.city) (fun _ _ => rfl) rfl ds,
    merge_string_field (fun w => w.weatherSummary) (fun _ _ => rfl) rfl ds,
    merge_string_field (fun w => w.sunrise) (fun _ _ => rfl) rfl ds,
    merge_string_field (fun w => w.sunset) (fun _ _ => rfl) rfl ds,
    merge_string_field (fun w => w.dayLength) (fun _ _ => rfl) rfl ds⟩,
   ⟨merge_string_field_append (fun w => w.city) (fun _ _ => rfl) rfl ds es,
    merge_string_field_append (fun w => w.weatherSummary) (fun _ _ => rfl) rfl ds es,
    merge_string_field_append (fun w => w.sunrise) (fun _ _ => rfl) rfl ds es,
    merge_string_field_append (fun w => w.sunset) (fun _ _ => rfl) rfl ds es,
    merge_string_field_append (fun w => w.dayLength) (fun _ _ => rfl) rfl ds es⟩⟩

/-- C2: in `mergeWeatherData`, every numeric field (`temperatureMax`,
`temperatureMin`, `rainfall`, `snowfall`, `temperature`,
`temperatureFeelsLike`, `temperatureTomorrow`, `temperatureMinTomorrow`) and
every integer field (`windSpeed`, `observationHour`) resolves to the last
non-zero value in sequence order; in the append form, a non-zero value of the
later block overrides, and an all-zero later block never clears an earlier
non-zero value. -/
theorem mergeWeatherData_numeric_fields_last_nonzero_wins (ds es : List WeatherData) :
    ((mergeWeatherData ds).temperatureMax
        = lastNonZero 0 (ds.map (fun w => w.temperatureMax))
      ∧ (mergeWeatherData ds).temperatureMin
          = lastNonZero 0 (ds.map (fun w => w.temperatureMin))
      ∧ (mergeWeatherData ds).rainfall = lastNonZero 0 (ds.map (fun w => w.rainfall))
      ∧ (mergeWeatherData ds).snowfall = lastNonZero 0 (ds.map (fun w => w.snowfall))
      ∧ (mergeWeatherData ds).temperature = lastNonZero 0 (ds.map (fun w => w.temperature))
      ∧ (mergeWeatherData ds).temperatureFeelsLike
          = lastNonZero 0 (ds.map (fun w => w.temperatureFeelsLike))
      ∧ (mergeWeatherData ds).temperatureTomorrow
          = lastNonZero 0 (ds.map (fun w => w.temperatureTomorrow))
      ∧ (mergeWeatherData ds).temperatureMinTomorrow
          = lastNonZero 0 (ds.map (fun w => w.temperatureMinTomorrow))
      ∧ (mergeWeatherData ds).windSpeed = lastNonZero 0 (ds.map (fun w => w.windSpeed))
      ∧ (mergeWeatherData ds).observationHour
          = lastNonZero 0 (ds.map (fun w => w.observationHour)))
    ∧ ((mergeWeatherData (ds ++ es)).temperatureMax
          = chooseNonZeroFloat64 (mergeWeatherData ds).temperatureMax
              (mergeWeatherData es).temperatureMax
      ∧ (mergeWeatherData (ds ++ es)).temperatureMin
          = chooseNonZeroFloat64 (mergeWeatherData ds).temperatureMin
              (mergeWeatherData es).temperatureMin
      ∧ (mergeWeatherData (ds ++ es)).rainfall
          = chooseNonZeroFloat64 (mergeWeatherData ds).rainfall (mergeWeatherData es).rainfall
      ∧ (mergeWeatherData (ds ++ es)).snowfall
          = chooseNonZeroFloat64 (mergeWeatherData ds).snowfall (mergeWeatherData es).snowfall
      ∧ (mergeWeatherData (ds ++ es)).temperature
          = chooseNonZeroFloat64 (mergeWeatherData ds).temperature
              (mergeWeatherData es).temperature
      ∧ (mergeWeatherData (ds ++ es)).temperatureFeelsLike
          = chooseNonZeroFloat64 (mergeWeatherData ds).temperatureFeelsLike
              (mergeWeatherData es).temperatureFeelsLike
      ∧ (mergeWeatherData (ds ++ es)).temperatureTomorrow
          = chooseNonZeroFloat64 (mergeWeatherData ds).temperatureTomorrow
              (mergeWeatherData es).temperatureTomorrow
      ∧ (mergeWeatherData (ds ++ es)).temperatureMinTomorrow
          = chooseNonZeroFloat64 (mergeWeatherData ds).temperatureMinTomorrow
              (mergeWeatherData es).temperatureMinTomorrow
      ∧ (mergeWeatherData (ds ++ es)).windSpeed
          = (if (mergeWeatherData es).windSpeed ≠ 0 then (mergeWeatherData es).windSpeed
             else (mergeWeatherData ds).windSpeed)
      ∧ (mergeWeatherData (ds ++ es)).observationHour
          = (if (mergeWeatherData es).observationHour ≠ 0
             then (mergeWeatherData es).observationHour
             else (mergeWeatherData ds).observationHour)) :=
  ⟨⟨merge_lastWins_field 0 (fun w => w.temperatureMax) (fun _ _ => rfl) rfl ds,
    merge_lastWins_field 0 (fun w => w.temperatureMin) (fun _ _ => rfl) rfl ds,
    merge_lastWins_field 0 (fun w => w.rainfall) (fun _ _ => rfl) rfl ds,
    merge_lastWins_field 0 (fun w => w.snowfall) (fun _ _ => rfl) rfl ds,
    merge_lastWins_field 0 (fun w => w.temperature) (fun _ _ => rfl) rfl ds,
    merge_lastWins_field 0 (fun w => w.temperatureFeelsLike) (fun _ _ => rfl) rfl ds,
    merge_lastWins_field 0 (fun w => w.temperatureTomorrow) (fun _ _ => rfl) rfl ds,
    merge_lastWins_field 0 (fun w => w.temperatureMinTomorrow) (fun _ _ => rfl) rfl ds,
    merge_lastWins_field 0 (fun w => w.windSpeed) (fun _ _ => rfl) rfl ds,
    merge_lastWins_field 0 (fun w => w.observationHour) (fun _ _ => rfl) rfl ds⟩,
   ⟨merge_lastWins_field_append 0 (fun w => w.temperatureMax) (fun _ _ => rfl) rfl ds es,
    merge_lastWins_field_append 0 (fun w => w.temperatureMin) (fun _ _ => rfl) rfl ds es,
    merge_lastWins_field_append 0 (fun w => w.rainfall) (fun _ _ => rfl) rfl ds es,
    merge_lastWins_field_append 0 (fun w => w.snowfall) (fun _ _ => rfl) rfl ds es,
    merge_lastWins_field_append 0 (fun w => w.temperature) (fun _ _ => rfl) rfl ds es,
    merge_lastWins_field_append 0 (fun w => w.temperatureFeelsLike) (fun _ _ => rfl) rfl ds es,
    merge_lastWins_field_append 0 (fun w => w.temperatureTomorrow) (fun _ _ => rfl) rfl ds es,
    merge_lastWins_field_append 0 (fun w => w.temperatureMinTomorrow)
      (fun _ _ => rfl) rfl ds es,
    merge_lastWins_field_append 0 (fun w => w.windSpeed) (fun _ _ => rfl) rfl ds es,
    merge_lastWins_field_append 0 (fun w => w.observationHour) (fun _ _ => rfl) rfl ds es⟩⟩

/-- C3: the merged `hourlyForecast` is the forecast of the last record that
supplies a non-empty sequence, replaced wholesale (characterisation over every
input list, plus the two concrete scenarios of the spec: an empty sequence
never overwrites a populated one, a later non-empty sequence replaces an
earlier one wholesale). -/
theorem mergeWeatherData_hourlyForecast_last_nonempty_wins (ds : List WeatherData) :
    (mergeWeatherData ds).hourlyForecast
        = lastNonZero [] (ds.map (fun w => w.hourlyForecast))
    ∧ (mergeWeatherData
          [{ hourlyForecast := [{ hour := "h1" }] }, { hourlyForecast := [] }]).hourlyForecast
        = [{ hour := "h1" }]
    ∧ (mergeWeatherData
          [{ hourlyForecast := [{ hour := "h1" }] },
           { hourlyForecast := [{ hour := "h2" }, { hour := "h3" }] }]).hourlyForecast
        = [{ hour := "h2" }, { hour := "h3" }] :=
  ⟨merge_lastWins_field [] (fun w => w.hourlyForecast) (fun _ _ => rfl) rfl ds,
   rfl, rfl⟩

/-- C4 counterexample: when two records in sequence both supply a non-empty
`hourlyForecast`, the merged forecast is the one of the *last* such record,
not of the first — refuting "set exactly once by the first record in merge
order that supplies a non-empty sequence". -/
theorem merge_hourlyForecast_first_record_counterexample :
    (mergeWeatherData
        [{ hourlyForecast := [{ hour := "01" }] },
         { hourlyForecast := [{ hour := "02" }] }]).hourlyForecast
      = [{ hour := "02" }]
    ∧ ([{ hour := "02" }] : List HourlyForecast) ≠ [{ hour := "01" }] := by
  refine ⟨rfl, ?_⟩
  decide

/-- C4 amended: the merged `hourlyForecast` is set by the *last* record in
merge order that supplies a non-empty sequence, wholesale — a final record
with a non-empty forecast replaces the accumulated forecast entirely, a final
record with an empty forecast leaves it untouched, and the empty merge has an
empty forecast. -/
theorem merge_hourlyForecast_set_by_last_nonempty (ds : List WeatherData) (d : WeatherData) :
    (mergeWeatherData []).hourlyForecast = []
    ∧ (mergeWeatherData (ds ++ [d])).hourlyForecast
        = (if d.hourlyForecast ≠ [] then d.hourlyForecast
           else (mergeWeatherData ds).hourlyForecast) := by
  refine ⟨rfl, ?_⟩
  rw [merge_snoc]
  rfl

/-- `sanitizeCityName`'s per-rune action: `strings.NewReplacer("ä","a","ö","o")`
replaces every occurrence of the single runes `ä` and `ö`. -/
def sanitizeRune (c : Char) : Char :=
  if c = 'ä' then 'a' else if c = 'ö' then 'o' else c

/-- `sanitizeCityName` of the source, applied rune by rune. -/
def sanitizeCityName (city : String) : String :=
  String.mk (city.data.map sanitizeRune)

theorem sanitizeRune_idem (c : Char) : sanitizeRune (sanitizeRune c) = sanitizeRune c := by
  by_cases h1 : c = 'ä'
  · subst h1; rfl
  · by_cases h2 : c = 'ö'
    · subst h2; rfl
    · have hc : sanitizeRune c = c := by simp [sanitizeRune, h1, h2]
      rw [hc]
      exact hc

/-- C8: city-name normalization is idempotent, and it folds `ä→a`, `ö→o`, so
the sanitized forms of `"Hyvinkää"` and `"Hyvinkaa"` agree. -/
theorem sanitizeCityName_idempotent (x : String) :
    sanitizeCityName (sanitizeCityName x) = sanitizeCityName x
    ∧ sanitizeCityName "Hyvinkää" = sanitizeCityName "Hyvinkaa" := by
  constructor
  · apply String.ext
    show (x.data.map sanitizeRune).map sanitizeRune = x.data.map sanitizeRune
    rw [List.map_map]
    exact List.map_congr_left (fun a _ => sanitizeRune_idem a)
  · decide

/-- The cache map `cache : map[string]WeatherData`, as a partial lookup. -/
abbrev Cache := String → Option WeatherData

/-- `cacheDuration = 5 * time.Minute`, in nanoseconds (Go `time.Duration`). -/
def cacheDuration : Int := 5 * 60 * 1000000000

/-- Miss/stale tail of `GetWeatherData`: merge the collected partial records,
stamp `LastUpdated`, fail without touching the cache when the merged city is
empty, otherwise store under the (already sanitized) key and return. -/
def refreshWeatherData (cache : Cache) (now : Int) (fetched : List WeatherData)
    (city : String) : Except String WeatherData × Cache :=
  if ({ mergeWeatherData fetched with lastUpdated := now } : WeatherData).city = "" then
    (Except.error ("No weather data found for city \"" ++ city ++ "\""), cache)
  else
    (Except.ok { mergeWeatherData fetched with lastUpdated := now },
     fun k => if k = city then some { mergeWeatherData fetched with lastUpdated := now }
              else cache k)

/-- `GetWeatherData` of the source, as a pure function of the cache state, the
current time, and the list `fetched` of partial records that the fan-in
collected (the network layer is external to the model).  It returns the
caller-visible result and the updated cache map. -/
def GetWeatherData (cache : Cache) (now : Int) (fetched : List WeatherData)
    (rawCity : String) : Except String WeatherData × Cache :=
  match cache (sanitizeCityName rawCity) with
  | some cachedData =>
    if now - cachedData.lastUpdated < cacheDuration then (Except.ok cachedData, cache)
    else refreshWeatherData cache now fetched (sanitizeCityName rawCity)
  | none => refreshWeatherData cache now fetched (sanitizeCityName rawCity)

/-- C5: when the call reaches the fetch path (no fresh cache hit) and the
merge of the collected partial records has an empty city — in particular when
zero sources succeeded — `GetWeatherData` returns the "no weather data found"
error and the cache map is returned unchanged, so nothing is stored under the
requested key. -/
theorem getWeatherData_empty_city_not_cached
    (cache : Cache) (now : Int) (fetched : List WeatherData) (rawCity : String)
    (hstale : ∀ cd, cache (sanitizeCityName rawCity) = some cd
      → cacheDuration ≤ now - cd.lastUpdated)
    (hempty : (mergeWeatherData fetched).city = "") :
    GetWeatherData cache now fetched rawCity
      = (Except.error ("No weather data found for city \""
          ++ sanitizeCityName rawCity ++ "\""), cache) := by
  have hrefresh : refreshWeatherData cache now fetched (sanitizeCityName rawCity)
      = (Except.error ("No weather data found for city \""
          ++ sanitizeCityName rawCity ++ "\""), cache) := by
    unfold refreshWeatherData
    rw [if_pos hempty]
  unfold GetWeatherData
  cases hc : cache (sanitizeCityName rawCity) with
  | none => simpa using hrefresh
  | some cd =>
    have hge := hstale cd hc
    have hnot : ¬ now - cd.lastUpdated < cacheDuration := not_lt.mpr hge
    simpa [hnot] using hrefresh

theorem getWeatherData_empty_city_not_cached_witness :
    GetWeatherData (fun _ => none) 0 [] "Turku"
      = (Except.error ("No weather data found for city \""
          ++ sanitizeCityName "Turku" ++ "\""), fun _ => none) :=
  getWeatherData_empty_city_not_cached (fun _ => none) 0 [] "Turku"
    (fun _ hcd => Option.noConfusion hcd) rfl

/-- C6 counterexample: `GetWeatherData` sanitizes the city name *before*
building the not-found message, so for the request `"Hyvinkää"` the message
shows the folded form `Hyvinkaa` and the originally requested name does not
occur in it. -/
theorem getWeatherData_error_message_counterexample :
    (GetWeatherData (fun _ => none) 0 [] "Hyvinkää").1
        = Except.error "No weather data found for city \"Hyvinkaa\""
      ∧ ¬ ("Hyvinkää".data <:+: "No weather data found for city \"Hyvinkaa\"".data) := by
  refine ⟨rfl, ?_⟩
  decide

/-- C6 amended: the not-found error message contains the *sanitized*
(diacritic-folded) city name; for inputs containing `ä` or `ö` the original
spelling is not preserved in the message. -/
theorem getWeatherData_error_message_contains_sanitized
    (cache : Cache) (now : Int) (fetched : List WeatherData) (rawCity : String)
    (hstale : ∀ cd, cache (sanitizeCityName rawCity) = some cd
      → cacheDuration ≤ now - cd.lastUpdated)
    (hempty : (mergeWeatherData fetched).city = "") :
    ∃ msg : String, (GetWeatherData cache now fetched rawCity).1 = Except.error msg
      ∧ (sanitizeCityName rawCity).data <:+: msg.data := by
  refine ⟨"No weather data found for city \"" ++ sanitizeCityName rawCity ++ "\"", ?_, ?_⟩
  · rw [getWeatherData_empty_city_not_cached cache now fetched rawCity hstale hempty]
  · refine ⟨"No weather data found for city \"".data, "\"".data, ?_⟩
    simp [String.data_append]

theorem getWeatherData_error_message_contains_sanitized_witness :
    ∃ msg : String, (GetWeatherData (fun _ => none) 0 [] "Hyvinkaa").1 = Except.error msg
      ∧ (sanitizeCityName "Hyvinkaa").data <:+: msg.data :=
  getWeatherData_error_message_contains_sanitized (fun _ => none) 0 [] "Hyvinkaa"
    (fun _ hcd => Option.noConfusion hcd) rfl

/-- C7: a cached entry strictly younger than `cacheDuration` is returned
unchanged, the cache map is not modified, and the collected fetch results are
irrelevant (the conclusion holds for every `fetched`, i.e. no source is
consulted); the refresh path is taken only on a miss or an entry at least
`cacheDuration` old. -/
theorem getWeatherData_fresh_hit
    (cache : Cache) (now : Int) (fetched : List WeatherData) (rawCity : String)
    (cd : WeatherData) (hhit : cache (sanitizeCityName rawCity) = some cd)
    (hfresh : now - cd.lastUpdated < cacheDuration) :
    GetWeatherData cache now fetched rawCity = (Except.ok cd, cache) := by
  unfold GetWeatherData
  rw [hhit]
  simp [hfresh]

theorem getWeatherData_fresh_hit_witness :
    GetWeatherData
        (fun k => if k = "turku" then some ({ city := "Turku" } : WeatherData) else none)
        1 [] "turku"
      = (Except.ok ({ city := "Turku" } : WeatherData),
         fun k => if k = "turku" then some ({ city := "Turku" } : WeatherData) else none) :=
  getWeatherData_fresh_hit _ 1 [] "turku" { city := "Turku" } rfl (by decide)

/-- State of the fan-out/fan-in machinery of one aggregation request
(`GetWeatherData` lines with `sync.WaitGroup` and the buffered channel).
Each entry of `fetchers` is one launched goroutine: `none` while it still
runs, `some r` once it returned, where `r` is the partial record it sent to
the channel (`none` when the fetch/parse failed and nothing was sent).
`chanBuf` is the buffered channel content, `chanClosed` the channel state
(closed by the helper goroutine after `wg.Wait()`), `collected` the slice
built by the `for data := range weatherDataChan` loop, and `merged` the
result of `mergeWeatherData`, once computed. -/
structure CoordState where
  fetchers : List (Option (Option WeatherData))
  chanBuf : List WeatherData
  chanClosed : Bool
  collected : List WeatherData
  merged : Option WeatherData

/-- Initial state of a request with `n` launched fetchers (`wg.Add(n)`). -/
def initCoord (n : Nat) : CoordState :=
  { fetchers := List.replicate n none
    chanBuf := []
    chanClosed := false
    collected := []
    merged := none }

/-- Interleaving steps of the coordinator.  `finish` is one goroutine
terminating (`defer wg.Done()`; on success its record enters the channel
buffer); `closeChan` is the `wg.Wait(); close(...)` goroutine, enabled only
when every fetcher has terminated — the counting join; `recv` is one
iteration of the collection loop; `mergeDone` runs `mergeWeatherData`, which
the collection loop only reaches once the channel is closed and drained. -/
inductive CoordStep : CoordState → CoordState → Prop
  | finish (s : CoordState) (i : Nat) (r : Option WeatherData) :
      s.fetchers.get? i = some none →
      CoordStep s { s with fetchers := s.fetchers.set i (some r)
                           chanBuf := s.chanBuf ++ r.toList }
  | closeChan (s : CoordState) :
      (∀ f ∈ s.fetchers, f ≠ none) → s.chanClosed = false →
      CoordStep s { s with chanClosed := true }
  | recv (s : CoordState) (d : WeatherData) (rest : List WeatherData) :
      s.chanBuf = d :: rest → s.merged = none →
      CoordStep s { s with chanBuf := rest
                           collected := s.collected ++ [d] }
  | mergeDone (s : CoordState) :
      s.chanClosed = true → s.chanBuf = [] → s.merged = none →
      CoordStep s { s with merged := some (mergeWeatherData s.collected) }

/-- States reachable by a request launched with `n` fetchers. -/
inductive CoordReachable (n : Nat) : CoordState → Prop
  | init : CoordReachable n (initCoord n)
  | step {s s' : CoordState} :
      CoordReachable n s → CoordStep s s' → CoordReachable n s'

/-- Join invariant: the channel closes only after every fetcher terminated,
and a merged result exists only after the close, computed from the collected
records. -/
def CoordInv (s : CoordState) : Prop :=
  (s.chanClosed = true → ∀ f ∈ s.fetchers, f ≠ none)
  ∧ (∀ w, s.merged = some w → s.chanClosed = true ∧ w = mergeWeatherData s.collected)

theorem coordStep_inv {s s' : CoordState} (h : CoordStep s s') (hs : CoordInv s) :
    CoordInv s' := by
  cases h with
  | finish i r hi =>
    constructor
    · intro hc f hf
      exact ((hs.1 hc) none (List.get?_mem hi) rfl).elim
    · intro w hw
      exact hs.2 w hw
  | closeChan hall hopen =>
    constructor
    · intro _ f hf
      exact hall f hf
    · intro w hw
      exact ⟨rfl, (hs.2 w hw).2⟩
  | recv d rest hbuf hm =>
    constructor
    · intro hc f hf
      exact hs.1 hc f hf
    · intro w hw
      have hw' : s.merged = some w := hw
      rw [hm] at hw'
      exact Option.noConfusion hw'
  | mergeDone hclosed hbuf hm =>
    constructor
    · intro _ f hf
      exact hs.1 hclosed f hf
    · intro w hw
      exact ⟨hclosed, (Option.some.inj hw).symm⟩

theorem coordReachable_inv {n : Nat} {s : CoordState} (h : CoordReachable n s) :
    CoordInv s := by
  induction h with
  | init =>
    constructor
    · intro hc
      simp [initCoord] at hc
    · intro w hw
      simp [initCoord] at hw
  | step _ hstep ih =>
    exact coordStep_inv hstep ih

/-- C9: in every reachable state of an aggregation request, a merged result
exists only after every launched fetcher has terminated (success or failure)
— the counting join — and the released value is exactly the merge of the
collected partial records, so no partial result escapes before the join. -/
theorem coordinator_merges_only_after_join (n : Nat) (s : CoordState)
    (hr : CoordReachable n s) (w : WeatherData) (hm : s.merged = some w) :
    (∀ f ∈ s.fetchers, f ≠ none) ∧ w = mergeWeatherData s.collected := by
  have hinv := coordReachable_inv hr
  have h2 := hinv.2 w hm
  exact ⟨hinv.1 h2.1, h2.2⟩

/-- A concrete terminal state of a request with zero fetchers: channel closed
by the join, nothing collected, merge of the empty list computed. -/
def joinDemoState : CoordState :=
  { fetchers := []
    chanBuf := []
    chanClosed := true
    collected := []
    merged := some (mergeWeatherData []) }

theorem coordinator_merges_only_after_join_witness :
    (∀ f ∈ joinDemoState.fetchers, f ≠ none)
    ∧ mergeWeatherData [] = mergeWeatherData joinDemoState.collected := by
  refine coordinator_merges_only_after_join 0 joinDemoState ?_ (mergeWeatherData []) rfl
  have h1 : CoordReachable 0 { initCoord 0 with chanClosed := true } :=
    CoordReachable.step CoordReachable.init
      (CoordStep.closeChan (initCoord 0) (by simp [initCoord]) rfl)
  exact CoordReachable.step h1
    (CoordStep.mergeDone { initCoord 0 with chanClosed := true } rfl rfl rfl)

/-- Decimal rendering of a measurement with one fractional digit, modelling
Go's `%.1f` on the rational embedding of `float64` (sign, then the rounded
multiple of one tenth). -/
def formatFixed1 (q : Rat) : String :=
  (if q < 0 then "-" else "")
    ++ toString (round (|q| * 10) / 10) ++ "." ++ toString (round (|q| * 10) % 10)

/-- `temperatureWithSign` of the source: prefix `+` on positive values. -/
def temperatureWithSign (temperature : Rat) : String :=
  if temperature > 0 then "+" ++ formatFixed1 temperature ++ "°C"
  else formatFixed1 temperature ++ "°C"

/-- Go's `%02d`: zero-pad the decimal form to width two. -/
def format02d (n : Int) : String :=
  if (toString n).length < 2 then "0" ++ toString n else toString n

/-- The plain-text body written by `weatherTextHandler`, line by line as in
the source (note: the source prints `weather.TemperatureMin` on both the
"Päivän alin" and the "Päivän ylin" line). -/
def weatherTextOutput (weather : WeatherData) : String :=
  "Sää " ++ weather.city ++ " (Klo. " ++ format02d weather.observationHour ++ ")\n"
  ++ weather.weatherSummary ++ "\n\n"
  ++ "Lämpötila: " ++ temperatureWithSign weather.temperature ++ " (Tuntuu kuin "
  ++ temperatureWithSign weather.temperatureFeelsLike ++ ")\n"
  ++ "Päivän alin: " ++ temperatureWithSign weather.temperatureMin ++ "\n"
  ++ "Päivän ylin: " ++ temperatureWithSign weather.temperatureMin ++ "\n"
  ++ "Sadetta: " ++ formatFixed1 weather.rainfall ++ " mm\n"
  ++ "Lunta: " ++ formatFixed1 weather.snowfall ++ " cm\n"
  ++ "Tuuli: " ++ toString weather.windSpeed ++ " m/s\n"
  ++ "Huomenna: " ++ temperatureWithSign weather.temperatureTomorrow ++ " (Alin: "
  ++ temperatureWithSign weather.temperatureMinTomorrow ++ ")\n"
  ++ "Auringonnousu: " ++ weather.sunrise ++ "\nAuringonlasku: " ++ weather.sunset ++ "\n"
  ++ "Päivän pituus: " ++ weather.dayLength ++ "\n"

set_option maxRecDepth 8192 in
/-- C10: the plain-text rendering shows `temperatureMin` on both the
"Päivän alin" and the "Päivän ylin" line, and it is independent of
`temperatureMax` (changing that field never changes the output, i.e. the
maximum temperature appears nowhere in the text). -/
theorem weatherTextOutput_min_on_both_lines (w : WeatherData) (x : Rat) :
    (∃ p q : String, weatherTextOutput w
        = p ++ ("Päivän alin: " ++ temperatureWithSign w.temperatureMin ++ "\n"
            ++ "Päivän ylin: " ++ temperatureWithSign w.temperatureMin ++ "\n") ++ q)
    ∧ weatherTextOutput { w with temperatureMax := x } = weatherTextOutput w := by
  constructor
  · refine ⟨"Sää " ++ w.city ++ " (Klo. " ++ format02d w.observationHour ++ ")\n"
      ++ w.weatherSummary ++ "\n\n"
      ++ "Lämpötila: " ++ temperatureWithSign w.temperature ++ " (Tuntuu kuin "
      ++ temperatureWithSign w.temperatureFeelsLike ++ ")\n",
      "Sadetta: " ++ formatFixed1 w.rainfall ++ " mm\n"
      ++ "Lunta: " ++ formatFixed1 w.snowfall ++ " cm\n"
      ++ "Tuuli: " ++ toString w.windSpeed ++ " m/s\n"
      ++ "Huomenna: " ++ temperatureWithSign w.temperatureTomorrow ++ " (Alin: "
      ++ temperatureWithSign w.temperatureMinTomorrow ++ ")\n"
      ++ "Auringonnousu: " ++ w.sunrise ++ "\nAuringonlasku: " ++ w.sunset ++ "\n"
      ++ "Päivän pituus: " ++ w.dayLength ++ "\n", ?_⟩
    apply String.ext
    simp [weatherTextOutput, String.data_append, List.append_assoc]
  · rfl

end Keli
